import Mathlib

/-!
Verification of the farquhar-wheat photosynthesis model against its
natural-language specification.

The development shallowly embeds, over the real numbers:

* `src/branches/develop/farquharwheat/model.py` — the Farquhar / Ball-Berry /
  Penman-Monteith formula library and the coupled (Ci, Ts) fixed-point solver
  `Model.run`, embedded in namespace `Model` below, definition by definition;
* `src/farquharwheat/simulation.py` — the per-element orchestration
  `Simulation.run`, embedded as `simulationRun`.  The trunk model module that
  this file imports (the one with MODEL_VERSION variants) is not part of the
  sources, so the per-element solve is abstracted as a function parameter;
  only the control flow of `Simulation.run` itself is modelled.

Python floats are modelled as real numbers; Python division by zero raises
while real division by zero is junk (0), so every theorem that depends on a
division is guarded by the corresponding positivity hypothesis.  The
diagnostic prints of the solver are I/O and are not modelled; the NameError
raised by `Simulation.run` is modelled with `Except`.
-/

namespace Model

/-- Intercellular O2 concentration (model.py line 33). -/
def O : ℝ := 21000

/-- Affinity constant of RuBisCO for C (model.py line 34). -/
def KC25 : ℝ := 404

/-- Affinity constant of RuBisCO for O (model.py line 35). -/
def KO25 : ℝ := 278.4e3

/-- CO2 compensation point at 25 degree C (model.py line 36). -/
def GAMMA25 : ℝ := 39

/-- Curvature parameter of J (model.py line 37). -/
def THETA : ℝ := 0.72

/-- Molar mass of water (model.py line 39). -/
def MM_WATER : ℝ := 18

/-- PARAM_N, S_surfacic_nitrogen slope for Vc_max25 (model.py line 52). -/
def S_Vc_max25 : ℝ := 84.965

/-- PARAM_N, S_surfacic_nitrogen slope for Jmax25 (model.py line 52). -/
def S_Jmax25 : ℝ := 117.6

/-- PARAM_N, S_surfacic_nitrogen slope for alpha (model.py line 52). -/
def S_alpha : ℝ := 0.0413

/-- PARAM_N, S_surfacic_nitrogen slope for TPU25 (model.py line 52). -/
def S_TPU25 : ℝ := 9.25

/-- PARAM_N, S_surfacic_nitrogen slope for Rdark25 (model.py line 52). -/
def S_Rdark25 : ℝ := 0.493

/-- PARAM_N, surfacic_nitrogen_min threshold for Vc_max25 (model.py line 53). -/
def surfacic_nitrogen_min_Vc_max25 : ℝ := 0

/-- PARAM_N, surfacic_nitrogen_min threshold for Jmax25 (model.py line 53). -/
def surfacic_nitrogen_min_Jmax25 : ℝ := 0

/-- PARAM_N, surfacic_nitrogen_min threshold for TPU25 (model.py line 53). -/
def surfacic_nitrogen_min_TPU25 : ℝ := 0

/-- PARAM_N, surfacic_nitrogen_min threshold for Rdark25 (model.py line 53). -/
def surfacic_nitrogen_min_Rdark25 : ℝ := 0

/-- PARAM_N, beta intercept of the alpha relation (model.py line 53). -/
def beta : ℝ := 0.2101 + 0.0083

/-- PARAM_N, delta1 parameter of m (model.py line 53). -/
def delta1 : ℝ := 14.7

/-- PARAM_N, delta2 parameter of m (model.py line 53). -/
def delta2 : ℝ := -0.548

/-- Initial surfacic nitrogen used when the user provides none (model.py line 54). -/
def NA_0 : ℝ := 2

/-- Minimum stomatal conductance, measured in the dark (model.py line 56). -/
def GSMIN : ℝ := 0.05

/-- Boundary layer conductance to water vapour (model.py line 57). -/
def GB : ℝ := 3.5

/-- Attenuation coefficient of wind within a wheat canopy (model.py line 59). -/
def A : ℝ := 2.5

/-- Psychrometric constant (model.py line 60). -/
def GAMMA : ℝ := 66e-3

/-- Extraterrestrial solar radiation (model.py line 61). -/
def I0 : ℝ := 1370

/-- Von Karman constant (model.py line 62). -/
def K : ℝ := 0.40

/-- Latent heat for vaporisation of water (model.py line 63). -/
def LAMBDA : ℝ := 2260e3

/-- Volumetric heat capacity of air (model.py line 64). -/
def RHOCP : ℝ := 1256

/-- Height above canopy at which reference wind is measured (model.py line 66). -/
def ZR : ℝ := 2

/-- Gas constant (model.py line 68). -/
def R : ℝ := 8.3144

/-- Atmospheric pressure (model.py line 69). -/
def PATM : ℝ := 1.01325e5

/-- Conversion from PAR absorbed to global radiation absorbed (model.py line 71). -/
def PARa_to_RGa : ℝ := 1.53

/-- Conversion factor from degree C to Kelvin (model.py line 81). -/
def KELVIN_DEGREE : ℝ := 273.15

/-- Efficiency discount of non-lamina organs (model.py line 83). -/
def EFFICENCY_STEM : ℝ := 0.78

/-- Relative tolerance of the Ci and Ts convergence test (model.py line 84). -/
def DELTA_CONVERGENCE : ℝ := 0.01

/-- Molar mass of nitrogen (model.py line 86). -/
def N_MOLAR_MASS : ℝ := 14

/-- Reference temperature of PARAM_TEMP (model.py line 80). -/
def Tref : ℝ := 298.15

/-- The photosynthetic parameter names keyed in PARAM_TEMP (model.py lines 78-80). -/
inductive PName where
  | Vc_max
  | Jmax
  | TPU
  | Kc
  | Ko
  | Gamma
  | Rdark
deriving DecidableEq

/-- PARAM_TEMP deltaHa, enthalpie of activation (model.py line 78). -/
def deltaHa : PName → ℝ
  | .Vc_max => 89.7
  | .Jmax => 48.9
  | .TPU => 47
  | .Kc => 79.43
  | .Ko => 36.38
  | .Gamma => 35
  | .Rdark => 46.39

/-- PARAM_TEMP deltaHd, enthalpie of deactivation; only the three capacity
parameters carry one (model.py line 79).  The Python dict raises on the other
keys; the code never reads them, and the embedding gives them a junk value 0. -/
def deltaHd : PName → ℝ
  | .Vc_max => 149.3
  | .Jmax => 152.3
  | .TPU => 152.3
  | _ => 0

/-- PARAM_TEMP deltaS, entropy term; only the three capacity parameters carry
one (model.py line 80); junk value 0 on the other, never-read keys. -/
def deltaS : PName → ℝ
  | .Vc_max => 0.486
  | .Jmax => 0.495
  | .TPU => 0.495
  | _ => 0

/-- Model._f_temperature (model.py lines 199-226): Arrhenius activation for
every parameter, and the entropy deactivation term for the capacity
parameters Vc_max, Jmax and TPU only. -/
noncomputable def _f_temperature (pname : PName) (p25 T : ℝ) : ℝ :=
  let Tk := T + KELVIN_DEGREE
  let f_activation := Real.exp ((deltaHa pname * (Tk - Tref)) / (R * 1e-3 * Tref * Tk))
  let f_deactivation :=
    if pname = .Vc_max ∨ pname = .Jmax ∨ pname = .TPU then
      (1 + Real.exp ((Tref * deltaS pname - deltaHd pname) / (Tref * R * 1e-3))) /
        (1 + Real.exp ((Tk * deltaS pname - deltaHd pname) / (Tk * R * 1e-3)))
    else 1
  p25 * f_activation * f_deactivation

/-- Kc of Model.calculate_photosynthesis (model.py line 244). -/
noncomputable def Kc_of (Ts : ℝ) : ℝ := _f_temperature .Kc KC25 Ts

/-- Ko of Model.calculate_photosynthesis (model.py line 245). -/
noncomputable def Ko_of (Ts : ℝ) : ℝ := _f_temperature .Ko KO25 Ts

/-- Gamma of Model.calculate_photosynthesis (model.py line 246). -/
noncomputable def Gamma_of (Ts : ℝ) : ℝ := _f_temperature .Gamma GAMMA25 Ts

/-- Vc_max of Model.calculate_photosynthesis (model.py lines 249-252). -/
noncomputable def Vc_max_of (surfacic_nonstructural_nitrogen Ts : ℝ) : ℝ :=
  _f_temperature .Vc_max
    (S_Vc_max25 * (surfacic_nonstructural_nitrogen - surfacic_nitrogen_min_Vc_max25)) Ts

/-- Ac, the RuBisCO-limited assimilation rate (model.py line 253). -/
noncomputable def Ac_of (surfacic_nonstructural_nitrogen Ts Ci : ℝ) : ℝ :=
  (Vc_max_of surfacic_nonstructural_nitrogen Ts * (Ci - Gamma_of Ts)) /
    (Ci + Kc_of Ts * (1 + O / Ko_of Ts))

/-- ALPHA of Model.calculate_photosynthesis (model.py line 256). -/
noncomputable def ALPHA_of (surfacic_nonstructural_nitrogen : ℝ) : ℝ :=
  S_alpha * surfacic_nonstructural_nitrogen + beta

/-- Jmax of Model.calculate_photosynthesis (model.py lines 257-260). -/
noncomputable def Jmax_of (surfacic_nonstructural_nitrogen Ts : ℝ) : ℝ :=
  _f_temperature .Jmax
    (S_Jmax25 * (surfacic_nonstructural_nitrogen - surfacic_nitrogen_min_Jmax25)) Ts

/-- J, the electron transport rate (model.py line 262). -/
noncomputable def J_of (PAR surfacic_nonstructural_nitrogen Ts : ℝ) : ℝ :=
  ((Jmax_of surfacic_nonstructural_nitrogen Ts + ALPHA_of surfacic_nonstructural_nitrogen * PAR) -
      Real.sqrt ((Jmax_of surfacic_nonstructural_nitrogen Ts +
            ALPHA_of surfacic_nonstructural_nitrogen * PAR) ^ 2 -
          4 * THETA * ALPHA_of surfacic_nonstructural_nitrogen * PAR *
            Jmax_of surfacic_nonstructural_nitrogen Ts)) / (2 * THETA)

/-- Aj, the RuBP-regeneration-limited assimilation rate (model.py line 263). -/
noncomputable def Aj_of (PAR surfacic_nonstructural_nitrogen Ts Ci : ℝ) : ℝ :=
  (J_of PAR surfacic_nonstructural_nitrogen Ts * (Ci - Gamma_of Ts)) /
    (4 * Ci + 8 * Gamma_of Ts)

/-- TPU of Model.calculate_photosynthesis (model.py lines 266-269). -/
noncomputable def TPU_of (surfacic_nonstructural_nitrogen Ts : ℝ) : ℝ :=
  _f_temperature .TPU
    (S_TPU25 * (surfacic_nonstructural_nitrogen - surfacic_nitrogen_min_TPU25)) Ts

/-- Vomax of Model.calculate_photosynthesis (model.py line 270). -/
noncomputable def Vomax_of (surfacic_nonstructural_nitrogen Ts : ℝ) : ℝ :=
  (Vc_max_of surfacic_nonstructural_nitrogen Ts * Ko_of Ts * Gamma_of Ts) /
    (0.5 * Kc_of Ts * O)

/-- Vo, the rate of oxygenation of RuBP (model.py line 271). -/
noncomputable def Vo_of (surfacic_nonstructural_nitrogen Ts Ci : ℝ) : ℝ :=
  (Vomax_of surfacic_nonstructural_nitrogen Ts * O) /
    (O + Ko_of Ts * (1 + Ci / Kc_of Ts))

/-- Ap, the triose-phosphate-utilisation-limited assimilation rate
(model.py line 272). -/
noncomputable def Ap_of (surfacic_nonstructural_nitrogen Ts Ci : ℝ) : ℝ :=
  (1 - Gamma_of Ts / Ci) * (3 * TPU_of surfacic_nonstructural_nitrogen Ts +
    Vo_of surfacic_nonstructural_nitrogen Ts Ci)

/-- Rd, the light-attenuated mitochondrial respiration rate
(model.py lines 280-282). -/
noncomputable def Rd_of (PAR surfacic_nonstructural_nitrogen Ts : ℝ) : ℝ :=
  _f_temperature .Rdark
      (S_Rdark25 * (surfacic_nonstructural_nitrogen - surfacic_nitrogen_min_Rdark25)) Ts *
    (0.33 + (1 - 0.33) * (0.5:ℝ) ^ ((PAR / 15 : ℝ)))

/-- Model.calculate_photosynthesis (model.py lines 228-290): gross assimilation
is the minimum of the three limitation rates, and net assimilation is
Ag - Rd, with Ag and An both forced to 0 when the minimum is nonpositive. -/
noncomputable def calculate_photosynthesis (PAR surfacic_nonstructural_nitrogen Ts Ci : ℝ) :
    ℝ × ℝ × ℝ :=
  let Ag := min (Ac_of surfacic_nonstructural_nitrogen Ts Ci)
    (min (Aj_of PAR surfacic_nonstructural_nitrogen Ts Ci)
      (Ap_of surfacic_nonstructural_nitrogen Ts Ci))
  let Rd := Rd_of PAR surfacic_nonstructural_nitrogen Ts
  if Ag ≤ 0 then (0, 0, Rd) else (Ag, Ag - Rd, Rd)

/-- Model._stomatal_conductance (model.py lines 161-180), the Ball, Woodrow
and Berry model of stomatal conductance. -/
noncomputable def _stomatal_conductance
    (Ag An surfacic_nonstructural_nitrogen ambient_CO2 RH : ℝ) : ℝ :=
  let Cs := ambient_CO2 - An * (1.37 / GB)
  let m := delta1 * surfacic_nonstructural_nitrogen ^ delta2
  GSMIN + m * ((Ag * RH) / Cs)

/-- Model._calculate_Ci (model.py lines 182-197), the internal CO2
concentration from the diffusion balance. -/
noncomputable def _calculate_Ci (ambient_CO2 An gsw : ℝ) : ℝ :=
  ambient_CO2 - An * ((1.6 / gsw) + (1.37 / GB))

/-- Model._organ_temperature (model.py lines 88-159): energy balance giving
the new organ temperature and the transpiration rate.  Returns (Ts, Tr). -/
noncomputable def _organ_temperature
    (w z Zh Ur PAR gsw Ta Ts RH : ℝ) (organ_name : String) : ℝ × ℝ :=
  let d := 0.7 * Zh
  let Zo := 0.1 * Zh
  let Ur := max Ur 0.1
  let u_star := (Ur * K) / Real.log ((ZR - d) / Zo)
  let Uh := (u_star / K) * Real.log ((Zh - d) / Zo)
  let u := Uh * Real.exp (A * (z / Zh - 1))
  let rbh := if organ_name = "blade" then 154 * Real.sqrt (w / u)
    else w / (1.2e-5 * (((u * w) / 1.5e-5) ^ ((0.47:ℝ))))
  let ra := 1 / (K ^ 2 * Ur) * (Real.log ((ZR - d) / Zo)) ^ 2
  let RGa := (PAR * PARa_to_RGa) / 4.55
  let es_Ta := 0.611 * Real.exp ((17.4 * Ta) / (239 + Ta))
  let V := RH * es_Ta
  let Rn := RGa
  let s := if Ts = Ta then
      ((17.4 * 239) / ((Ta + KELVIN_DEGREE) + 239) ^ 2) * es_Ta
    else
      (0.611 * Real.exp ((17.4 * Ts) / (239 + Ts)) - es_Ta) /
        ((Ts + KELVIN_DEGREE) - (Ta + KELVIN_DEGREE))
  let VPDa := es_Ta - V
  let rbw := 0.96 * rbh
  let gsw_physic := (gsw * R * (Ts + KELVIN_DEGREE)) / PATM
  let rswp := 1 / gsw_physic
  let Tr := max 0 ((s * Rn + (RHOCP * VPDa) / (rbh + ra)) /
    (LAMBDA * (s + GAMMA * ((rbw + ra + rswp) / (rbh + ra)))))
  let Ts := Ta + ((rbh + ra) * (Rn - LAMBDA * Tr)) / RHOCP
  (Ts, Tr)

/-- Model.calculate_surfacic_nitrogen (model.py lines 292-306). -/
noncomputable def calculate_surfacic_nitrogen
    (nitrates amino_acids proteins Nstruct green_area : ℝ) : ℝ :=
  ((nitrates + amino_acids + proteins) * 1e-6 * N_MOLAR_MASS + Nstruct) / green_area

/-- Model.calculate_surfacic_nonstructural_nitrogen (model.py lines 308-321). -/
noncomputable def calculate_surfacic_nonstructural_nitrogen
    (nitrates amino_acids proteins green_area : ℝ) : ℝ :=
  ((nitrates + amino_acids + proteins) * 1e-6 * N_MOLAR_MASS) / green_area

/-- Model.calculate_surfacic_photosynthetic_proteins (model.py lines 323-334). -/
noncomputable def calculate_surfacic_photosynthetic_proteins
    (proteins green_area : ℝ) : ℝ :=
  (proteins * 1e-6 * N_MOLAR_MASS) / green_area

/-- The inputs of Model.run (model.py lines 336-360), one record per solve.
The nitrogen input is optional: when it is missing, Model.run substitutes
NA_0. -/
structure RunInputs where
  surfacic_nonstructural_nitrogen : Option ℝ
  width : ℝ
  height : ℝ
  PAR : ℝ
  Ta : ℝ
  ambient_CO2 : ℝ
  RH : ℝ
  Ur : ℝ
  organ_name : String
  height_canopy : ℝ

/-- The working variables of one iteration of the solver loop of Model.run:
the values Ci, Ts, Ag, An, Rd, Tr and gsw hold after the loop body ran. -/
structure LoopState where
  Ci : ℝ
  Ts : ℝ
  Ag : ℝ
  An : ℝ
  Rd : ℝ
  Tr : ℝ
  gsw : ℝ

/-- One body of the while loop of Model.run (model.py lines 370-380): the
photosynthesis, stomatal conductance, internal CO2 and energy-balance calls,
in source order, from the previous (Ci, Ts). -/
noncomputable def runStep (I : RunInputs) (surfacic_nonstructural_nitrogen Ci Ts : ℝ) :
    LoopState :=
  let p := calculate_photosynthesis I.PAR surfacic_nonstructural_nitrogen Ts Ci
  let gsw := _stomatal_conductance p.1 p.2.1 surfacic_nonstructural_nitrogen I.ambient_CO2 I.RH
  let Ci' := _calculate_Ci I.ambient_CO2 p.2.1 gsw
  let tt := _organ_temperature I.width I.height I.height_canopy I.Ur I.PAR gsw I.Ta Ts I.RH
    I.organ_name
  ⟨Ci', tt.1, p.1, p.2.1, p.2.2, tt.2, gsw⟩

/-- The convergence test of Model.run (model.py line 388), translated
verbatim: prec_Ci and prec_Ts are the previous iterates, s holds the new
ones. -/
def codeConverged (prec_Ci prec_Ts : ℝ) (s : LoopState) : Prop :=
  |(s.Ci - prec_Ci) / prec_Ci| < DELTA_CONVERGENCE ∧
    ((prec_Ts = 0 ∧ s.Ts - prec_Ts = 0) ∨ |(s.Ts - prec_Ts) / prec_Ts| < DELTA_CONVERGENCE)

noncomputable instance (prec_Ci prec_Ts : ℝ) (s : LoopState) : Decidable (codeConverged prec_Ci prec_Ts s) := by
  unfold codeConverged
  infer_instance

/-- The while loop of Model.run (model.py lines 369-389).  `fuel` is the
number of loop bodies the iteration cap still allows (30 - count on entry,
so 30 at the start); the body always runs once, the hard stop fires when the
incremented count reaches 30 (fuel ≤ 1 on entry), and otherwise the loop
exits early exactly on the line-388 convergence test.  Returns the state of
the last body together with the number of bodies run. -/
noncomputable def runLoopAux (I : RunInputs) (surfacic_nonstructural_nitrogen : ℝ) :
    ℕ → ℝ → ℝ → LoopState × ℕ
  | 0, Ci, Ts => (runStep I surfacic_nonstructural_nitrogen Ci Ts, 1)
  | 1, Ci, Ts => (runStep I surfacic_nonstructural_nitrogen Ci Ts, 1)
  | (n + 2), Ci, Ts =>
    let s := runStep I surfacic_nonstructural_nitrogen Ci Ts
    if codeConverged Ci Ts s then (s, 1)
    else
      ((runLoopAux I surfacic_nonstructural_nitrogen (n + 1) s.Ci s.Ts).1,
        (runLoopAux I surfacic_nonstructural_nitrogen (n + 1) s.Ci s.Ts).2 + 1)

/-- Model.run (model.py lines 336-396): substitute NA_0 for a missing
nitrogen input, run the fixed-point loop from Ci = 0.7 * ambient CO2 and
Ts = Ta with an iteration cap of 30, convert Tr to mmol per m2 per s, apply
the stem efficiency discount to non-blade organs, and return the sextuple
(Ag, An, Rd, Tr, Ts, gsw). -/
noncomputable def run (I : RunInputs) : ℝ × ℝ × ℝ × ℝ × ℝ × ℝ :=
  let N := I.surfacic_nonstructural_nitrogen.getD NA_0
  let r := runLoopAux I N 30 (0.7 * I.ambient_CO2) I.Ta
  let s := r.1
  let Tr := (s.Tr * 1e6) / MM_WATER
  let Ag := if I.organ_name ≠ "blade" then s.Ag * EFFICENCY_STEM else s.Ag
  (Ag, s.An, s.Rd, Tr, s.Ts, s.gsw)

/-- The gross assimilation rate held by the solver loop of Model.run when it
stops, before the terminal stem-efficiency discount is applied. -/
noncomputable def rawAg (I : RunInputs) : ℝ :=
  ((runLoopAux I (I.surfacic_nonstructural_nitrogen.getD NA_0) 30
    (0.7 * I.ambient_CO2) I.Ta).1).Ag

end Model

/-- The convergence criterion as the specification words it: the relative
change in Ci since the previous iteration is below the fixed tolerance 0.01,
and either the relative change in Ts is below the same tolerance or the
previous Ts was exactly zero and the new Ts equals it. -/
def convergedSpec (precCi newCi precTs newTs : ℝ) : Prop :=
  |(newCi - precCi) / precCi| < 0.01 ∧
    (|(newTs - precTs) / precTs| < 0.01 ∨ (precTs = 0 ∧ newTs = precTs))

/-- An element identifier of Simulation.run (simulation.py line 37):
(plant_index, axis_label, metamer_index, organ_label, element_label).
simulation.py reads element_id[:2] as the axis identifier and element_id[3]
as the organ label. -/
structure ElementId where
  plant : ℕ
  axis : String
  metamer : ℕ
  organ : String
  element : String
deriving DecidableEq

/-- The per-element inputs that Simulation.run reads (simulation.py lines
91-132): the optional height, and the geometry, light and composition inputs
handed to the model. -/
structure ElemInputs where
  height : Option ℝ
  width : ℝ
  PARa : ℝ
  proteins : ℝ
  green_area : ℝ
  nitrates : ℝ
  amino_acids : ℝ
  Nstruct : ℝ
  sucrose : ℝ
  starch : ℝ
  fructan : ℝ

/-- The per-axis inputs that Simulation.run reads (simulation.py lines 93
and 96). -/
structure AxisInputs where
  SAM_temperature : ℝ
  height_canopy : ℝ

/-- The per-element outputs of Simulation.run (simulation.py lines 136-138). -/
structure ElemOutputs where
  Ag : ℝ
  An : ℝ
  Rd : ℝ
  Tr : ℝ
  Ts : ℝ
  gs : ℝ
  width : ℝ
  height : Option ℝ

/-- The type of the per-element solve that Simulation.run delegates to: from
the configuration selector, the element inputs, the organ label, the axis
inputs and the four ambient drivers to the sextuple (Ag, An, Rd, Tr, Ts, gs). -/
def SolverFun : Type :=
  String → ElemInputs → String → AxisInputs → ℝ → ℝ → ℝ → ℝ → ℝ × ℝ × ℝ × ℝ × ℝ × ℝ

/-- The NameError message of simulation.py line 134. -/
def invalidVersionMsg : String :=
  "MODEL_VERSION is not none. MODEL_VERSION must be Barillot2016 or SurfacicProteins or SurfacicProteins_Retroinhibition."

/-- Simulation.run (simulation.py lines 69-140).  Modelled from the spec for
the part that is not under src: the trunk farquharwheat.model module that
simulation.py imports (the MODEL_VERSION variants of the solver and their
nitrogen normalizations) is missing from the sources, so the whole
per-element solve is abstracted as the `solver` parameter, invoked once per
element that is actually solved; the control flow is translated from
simulation.py itself.  Per element, in input order: a non main-stem element
is skipped and keeps the empty output dict created on line 80 (modelled as
`none`); a main-stem element without height bypasses the solver, its outputs
forced to zero except Ts, inherited from the SAM temperature of its axis; any
other main-stem element dispatches on MODEL_VERSION, an unrecognized selector
raising NameError (modelled as `Except.error`, which ends the traversal). -/
def simulationRun (MODEL_VERSION : String) (solver : SolverFun)
    (axes : ℕ × String → AxisInputs) (Ta ambient_CO2 RH Ur : ℝ) :
    List (ElementId × ElemInputs) → Except String (List (ElementId × Option ElemOutputs))
  | [] => .ok []
  | (element_id, element_inputs) :: rest =>
    if element_id.axis ≠ "MS" then
      (simulationRun MODEL_VERSION solver axes Ta ambient_CO2 RH Ur rest).map
        (((element_id, none)) :: ·)
    else
      match element_inputs.height with
      | none =>
        let out : ElemOutputs :=
          ⟨0, 0, 0, 0, (axes (element_id.plant, element_id.axis)).SAM_temperature, 0,
            element_inputs.width, element_inputs.height⟩
        (simulationRun MODEL_VERSION solver axes Ta ambient_CO2 RH Ur rest).map
          (((element_id, some out)) :: ·)
      | some _ =>
        if MODEL_VERSION = "SurfacicProteins" ∨ MODEL_VERSION = "SurfacicProteins_Retroinhibition" then
          let r := solver MODEL_VERSION element_inputs element_id.organ
            (axes (element_id.plant, element_id.axis)) Ta ambient_CO2 RH Ur
          let out : ElemOutputs :=
            ⟨r.1, r.2.1, r.2.2.1, r.2.2.2.1, r.2.2.2.2.1, r.2.2.2.2.2,
              element_inputs.width, element_inputs.height⟩
          (simulationRun MODEL_VERSION solver axes Ta ambient_CO2 RH Ur rest).map
            (((element_id, some out)) :: ·)
        else if MODEL_VERSION = "Barillot2016" then
          let r := solver MODEL_VERSION element_inputs element_id.organ
            (axes (element_id.plant, element_id.axis)) Ta ambient_CO2 RH Ur
          let out : ElemOutputs :=
            ⟨r.1, r.2.1, r.2.2.1, r.2.2.2.1, r.2.2.2.2.1, r.2.2.2.2.2,
              element_inputs.width, element_inputs.height⟩
          (simulationRun MODEL_VERSION solver axes Ta ambient_CO2 RH Ur rest).map
            (((element_id, some out)) :: ·)
        else .error invalidVersionMsg

/-- A solver that returns zeros, used to instantiate the abstract solver of
`simulationRun` at concrete inputs. -/
def solver0 : SolverFun := fun _ _ _ _ _ _ _ _ => (0, 0, 0, 0, 0, 0)

/-- A concrete axis-input table: every axis has SAM temperature 21 and canopy
height 1. -/
def axes0 : ℕ × String → AxisInputs := fun _ => ⟨21, 1⟩

/-- A concrete main-stem element identifier. -/
def idMS : ElementId := ⟨1, "MS", 9, "blade", "visible"⟩

/-- A concrete tiller (non main-stem) element identifier. -/
def idT1 : ElementId := ⟨1, "T1", 9, "blade", "visible"⟩

/-- Concrete element inputs with no height. -/
def inpNone : ElemInputs := ⟨none, 0.01, 0, 0, 0, 0, 0, 0, 0, 0, 0⟩

/-- Concrete element inputs with a height. -/
def inpSome : ElemInputs := ⟨some 0.5, 0.01, 100, 1, 1, 1, 1, 1, 1, 1, 1⟩

/-- The entry that simulationRun writes for one element when no NameError is
raised, read off from the branches of simulation.py lines 88-140: skipped
non main-stem elements keep the empty dict, elements without height get the
zero/SAM bypass record, the others get the sextuple of the solve. -/
def elementEntry (MODEL_VERSION : String) (solver : SolverFun)
    (axes : ℕ × String → AxisInputs) (Ta ambient_CO2 RH Ur : ℝ)
    (e : ElementId × ElemInputs) : ElementId × Option ElemOutputs :=
  if e.1.axis ≠ "MS" then (e.1, none)
  else match e.2.height with
    | none =>
      (e.1, some ⟨0, 0, 0, 0, (axes (e.1.plant, e.1.axis)).SAM_temperature, 0,
        e.2.width, e.2.height⟩)
    | some _ =>
      let r := solver MODEL_VERSION e.2 e.1.organ (axes (e.1.plant, e.1.axis))
        Ta ambient_CO2 RH Ur
      (e.1, some ⟨r.1, r.2.1, r.2.2.1, r.2.2.2.1, r.2.2.2.2.1, r.2.2.2.2.2,
        e.2.width, e.2.height⟩)

/-- The iterations actually run by the solver loop of Model.run. -/
noncomputable def Model.iterationsRun (I : Model.RunInputs) : ℕ :=
  (Model.runLoopAux I (I.surfacic_nonstructural_nitrogen.getD Model.NA_0) 30
    (0.7 * I.ambient_CO2) I.Ta).2

/-- The state of the solver loop of Model.run when it stops. -/
noncomputable def Model.finalState (I : Model.RunInputs) : Model.LoopState :=
  (Model.runLoopAux I (I.surfacic_nonstructural_nitrogen.getD Model.NA_0) 30
    (0.7 * I.ambient_CO2) I.Ta).1

namespace Model

theorem f_temperature_eq_mul (p : PName) (a T : ℝ) :
    _f_temperature p a T = a * _f_temperature p 1 T := by
  simp only [_f_temperature]
  ring

theorem f_temperature_one_pos (p : PName) (T : ℝ) : 0 < _f_temperature p 1 T := by
  simp only [_f_temperature]
  split <;> positivity

theorem f_temperature_lt_of_lt (p : PName) (T : ℝ) {a b : ℝ} (h : a < b) :
    _f_temperature p a T < _f_temperature p b T := by
  rw [f_temperature_eq_mul p a T, f_temperature_eq_mul p b T]
  exact (mul_lt_mul_right (f_temperature_one_pos p T)).mpr h

theorem f_temperature_le_of_le (p : PName) (T : ℝ) {a b : ℝ} (h : a ≤ b) :
    _f_temperature p a T ≤ _f_temperature p b T := by
  rw [f_temperature_eq_mul p a T, f_temperature_eq_mul p b T]
  exact mul_le_mul_of_nonneg_right h (f_temperature_one_pos p T).le

theorem f_temperature_nonneg (p : PName) (T : ℝ) {a : ℝ} (h : 0 ≤ a) :
    0 ≤ _f_temperature p a T := by
  have h0 : _f_temperature p 0 T = 0 := by rw [f_temperature_eq_mul]; ring
  calc (0:ℝ) = _f_temperature p 0 T := h0.symm
    _ ≤ _f_temperature p a T := f_temperature_le_of_le p T h

theorem f_temperature_pos (p : PName) (T : ℝ) {a : ℝ} (h : 0 < a) :
    0 < _f_temperature p a T := by
  rw [f_temperature_eq_mul]
  exact mul_pos h (f_temperature_one_pos p T)

theorem f_temperature_at_25 (p : PName) (p25 : ℝ) : _f_temperature p p25 25 = p25 := by
  simp only [_f_temperature, KELVIN_DEGREE, Tref]
  have h1 : (25:ℝ) + 273.15 = 298.15 := by norm_num
  rw [h1]
  simp only [sub_self, mul_zero, zero_div, Real.exp_zero, mul_one]
  split
  · rw [div_self (by positivity)]
    ring
  · ring

theorem runLoopAux_count_pos (I : RunInputs) (N : ℝ) :
    ∀ (fuel : ℕ) (Ci Ts : ℝ), 1 ≤ (runLoopAux I N fuel Ci Ts).2 := by
  intro fuel
  induction fuel using Nat.strong_induction_on with
  | _ fuel ih =>
    intro Ci Ts
    match fuel with
    | 0 => simp [runLoopAux]
    | 1 => simp [runLoopAux]
    | (n + 2) =>
      simp only [runLoopAux]
      split
      · simp
      · simp

theorem runLoopAux_count_le (I : RunInputs) (N : ℝ) :
    ∀ (fuel : ℕ) (Ci Ts : ℝ), (runLoopAux I N fuel Ci Ts).2 ≤ max fuel 1 := by
  intro fuel
  induction fuel using Nat.strong_induction_on with
  | _ fuel ih =>
    intro Ci Ts
    match fuel with
    | 0 => simp [runLoopAux]
    | 1 => simp [runLoopAux]
    | (n + 2) =>
      simp only [runLoopAux]
      split
      · simp
      · have := ih (n + 1) (by omega) (runStep I N Ci Ts).Ci (runStep I N Ci Ts).Ts
        simp at this ⊢
        omega

end Model

theorem codeConverged_iff_spec (pCi pTs : ℝ) (s : Model.LoopState) :
    Model.codeConverged pCi pTs s ↔ convergedSpec pCi s.Ci pTs s.Ts := by
  simp only [Model.codeConverged, convergedSpec, Model.DELTA_CONVERGENCE, sub_eq_zero]
  tauto

theorem excMap_error {ε α β : Type} (f : α → β) (x : Except ε α) (e : ε) :
    x.map f = .error e ↔ x = .error e := by
  cases x <;> simp [Except.map]

theorem excMap_ok {ε α β : Type} (f : α → β) (x : Except ε α) (b : β) :
    x.map f = .ok b ↔ ∃ a, x = .ok a ∧ b = f a := by
  cases x <;> simp [Except.map, eq_comm]

/-- C1: for every input set, the solver Model.run performs at most 30
iterations of the (Ci, Ts) fixed-point loop — when the count reaches 30 it
stops regardless of convergence (the diagnostic print of lines 383-386 is
advisory I/O, not modelled) — and it always returns the defined sextuple
(Ag, An, Rd, Tr, Ts, gsw) built from the state of the last iteration, with
the Tr unit conversion and the non-blade Ag discount of lines 391-396. -/
theorem C1_solver_terminates (I : Model.RunInputs) :
    Model.iterationsRun I ≤ 30 ∧
    Model.run I =
      ((if I.organ_name ≠ "blade" then (Model.finalState I).Ag * Model.EFFICENCY_STEM
         else (Model.finalState I).Ag),
       (Model.finalState I).An, (Model.finalState I).Rd,
       ((Model.finalState I).Tr * 1e6) / Model.MM_WATER,
       (Model.finalState I).Ts, (Model.finalState I).gsw) := by
  constructor
  · have := Model.runLoopAux_count_le I (I.surfacic_nonstructural_nitrogen.getD Model.NA_0)
      30 (0.7 * I.ambient_CO2) I.Ta
    simpa [Model.iterationsRun] using this
  · rfl

/-- C2: whenever the iteration cap is not yet reached (at least two more
bodies are allowed, fuel = n + 2), the fixed-point loop of Model.run stops at
the current iteration exactly when the specification predicate holds: the
relative change in Ci is below the tolerance 0.01 and either the relative
change in Ts is below the same tolerance or the previous Ts was exactly zero
and the new Ts equals it. -/
theorem C2_loop_exit_condition (I : Model.RunInputs) (N : ℝ) (n : ℕ) (Ci Ts : ℝ) :
    (Model.runLoopAux I N (n + 2) Ci Ts).2 = 1 ↔
      convergedSpec Ci (Model.runStep I N Ci Ts).Ci Ts (Model.runStep I N Ci Ts).Ts := by
  simp only [Model.runLoopAux]
  split
  · next h =>
    simpa using (codeConverged_iff_spec Ci Ts (Model.runStep I N Ci Ts)).mp h
  · next h =>
    have h1 := Model.runLoopAux_count_pos I N (n + 1)
      (Model.runStep I N Ci Ts).Ci (Model.runStep I N Ci Ts).Ts
    have h2 : ¬ convergedSpec Ci (Model.runStep I N Ci Ts).Ci Ts (Model.runStep I N Ci Ts).Ts :=
      fun hc => h ((codeConverged_iff_spec Ci Ts (Model.runStep I N Ci Ts)).mpr hc)
    simp only [h2, iff_false]
    omega

/-- C3: for every input of Model.calculate_photosynthesis, the returned Ag is
nonnegative; the returned An equals Ag - Rd when Ag is positive, and both Ag
and An are forced to 0 otherwise; hence An is at most Ag whenever Rd is
nonnegative. -/
theorem C3_photosynthesis_sign (PAR N Ts Ci : ℝ) :
    0 ≤ (Model.calculate_photosynthesis PAR N Ts Ci).1 ∧
    (0 < (Model.calculate_photosynthesis PAR N Ts Ci).1 →
      (Model.calculate_photosynthesis PAR N Ts Ci).2.1 =
        (Model.calculate_photosynthesis PAR N Ts Ci).1 -
          (Model.calculate_photosynthesis PAR N Ts Ci).2.2) ∧
    (¬ 0 < (Model.calculate_photosynthesis PAR N Ts Ci).1 →
      (Model.calculate_photosynthesis PAR N Ts Ci).1 = 0 ∧
        (Model.calculate_photosynthesis PAR N Ts Ci).2.1 = 0) ∧
    (0 ≤ (Model.calculate_photosynthesis PAR N Ts Ci).2.2 →
      (Model.calculate_photosynthesis PAR N Ts Ci).2.1 ≤
        (Model.calculate_photosynthesis PAR N Ts Ci).1) := by
  simp only [Model.calculate_photosynthesis]
  split
  · exact ⟨le_refl 0, fun h => absurd h (by simp), fun _ => ⟨rfl, rfl⟩, fun _ => le_refl 0⟩
  · next h =>
    push_neg at h
    exact ⟨h.le, fun _ => rfl, fun hn => absurd h hn, fun hr => sub_le_self _ hr⟩

/-- C4, counterexample: the claim that gsw is at least GSMIN for all inputs
of Model._stomatal_conductance fails: at Ag = 1, An = 1, nitrogen = 1,
ambient CO2 = 0 and RH = 1, the surface CO2 concentration Cs is negative and
the returned conductance is below GSMIN (indeed far below zero). -/
theorem C4_gsw_floor_counterexample :
    Model._stomatal_conductance 1 1 1 0 1 < Model.GSMIN := by
  simp only [Model._stomatal_conductance, Model.GSMIN, Model.delta1, Model.delta2, Model.GB]
  rw [Real.one_rpow]
  norm_num

/-- C4, amended: whenever Ag and RH are nonnegative, the nitrogen content is
positive, and the surface CO2 concentration Cs = ambient CO2 - An * 1.37/GB
is positive — as holds for the physical inputs produced inside Model.run,
where Ag is clamped nonnegative — the conductance returned by
Model._stomatal_conductance is at least the floor GSMIN = 0.05, because the
Ball-Berry term added to GSMIN is then nonnegative. -/
theorem C4_gsw_floor_amended (Ag An N CO2 RH : ℝ) (hAg : 0 ≤ Ag) (hRH : 0 ≤ RH)
    (hN : 0 < N) (hCs : 0 < CO2 - An * (1.37 / Model.GB)) :
    Model.GSMIN ≤ Model._stomatal_conductance Ag An N CO2 RH := by
  simp only [Model._stomatal_conductance]
  have hm : 0 < Model.delta1 * N ^ Model.delta2 :=
    mul_pos (by norm_num [Model.delta1]) (Real.rpow_pos_of_pos hN _)
  have hterm : 0 ≤ Model.delta1 * N ^ Model.delta2 *
      ((Ag * RH) / (CO2 - An * (1.37 / Model.GB))) :=
    mul_nonneg hm.le (div_nonneg (mul_nonneg hAg hRH) hCs.le)
  linarith

/-- C4, witness of the amended theorem at Ag = 1, An = 0, N = 1, CO2 = 380,
RH = 0.5. -/
theorem C4_gsw_floor_witness :
    Model.GSMIN ≤ Model._stomatal_conductance 1 0 1 380 0.5 :=
  C4_gsw_floor_amended 1 0 1 380 0.5 (by norm_num) (by norm_num) (by norm_num)
    (by norm_num [Model.GB])

/-- C5: the terminal stage of Model.run multiplies the Ag held by the solver
loop by the fixed discount EFFICENCY_STEM = 0.78 for every non-blade organ
and returns a blade Ag undiscounted; consequently, whenever the physics are
held equal — the loop of the non-blade input produces the same raw Ag as the
loop of the otherwise-identical blade input — the returned non-blade Ag is
0.78 times the returned blade Ag. -/
theorem C5_stem_discount (I : Model.RunInputs) :
    (I.organ_name ≠ "blade" →
      (Model.run I).1 = Model.EFFICENCY_STEM * Model.rawAg I) ∧
    (Model.run {I with organ_name := "blade"}).1 =
      Model.rawAg {I with organ_name := "blade"} ∧
    (I.organ_name ≠ "blade" →
      Model.rawAg I = Model.rawAg {I with organ_name := "blade"} →
      (Model.run I).1 = Model.EFFICENCY_STEM * (Model.run {I with organ_name := "blade"}).1) := by
  have h1 : I.organ_name ≠ "blade" →
      (Model.run I).1 = Model.EFFICENCY_STEM * Model.rawAg I := by
    intro h
    simp only [Model.run, Model.rawAg]
    rw [if_pos h, mul_comm]
  have h2 : (Model.run {I with organ_name := "blade"}).1 =
      Model.rawAg {I with organ_name := "blade"} := by
    simp only [Model.run, Model.rawAg]
    rw [if_neg (by simp)]
  exact ⟨h1, h2, fun h heq => by rw [h1 h, h2, heq]⟩

/-- C9: the wind speed used inside Model._organ_temperature is the maximum of
the supplied Ur and 0.1 m per s, applied before any logarithmic term, so the
function of Ur factors through that clamp; the clamped speed is at least 0.1,
hence the only divisor involving Ur, K^2 times the clamped Ur in the
aerodynamic resistance, is positive — in particular Ur = 0 causes no division
by zero in the wind-profile terms. -/
theorem C9_wind_clamp (w z Zh Ur PAR gsw Ta Ts RH : ℝ) (organ_name : String) :
    Model._organ_temperature w z Zh Ur PAR gsw Ta Ts RH organ_name =
      Model._organ_temperature w z Zh (max Ur 0.1) PAR gsw Ta Ts RH organ_name ∧
    (0.1:ℝ) ≤ max Ur 0.1 ∧ 0 < Model.K ^ 2 * max Ur 0.1 := by
  refine ⟨?_, le_max_right _ _, ?_⟩
  · have h : max (max Ur (0.1:ℝ)) 0.1 = max Ur 0.1 := by rw [max_assoc, max_self]
    simp only [Model._organ_temperature, h]
  · have h2 : (0:ℝ) < max Ur 0.1 := lt_of_lt_of_le (by norm_num) (le_max_right _ _)
    have hK : (0:ℝ) < Model.K ^ 2 := by norm_num [Model.K]
    exact mul_pos hK h2

theorem simulationRun_ok_map (MODEL_VERSION : String) (solver : SolverFun)
    (axes : ℕ × String → AxisInputs) (Ta CO2 RH Ur : ℝ) :
    ∀ (elements : List (ElementId × ElemInputs))
      (out : List (ElementId × Option ElemOutputs)),
      simulationRun MODEL_VERSION solver axes Ta CO2 RH Ur elements = .ok out →
      out = elements.map (elementEntry MODEL_VERSION solver axes Ta CO2 RH Ur) := by
  intro elements
  induction elements with
  | nil =>
    intro out hrun
    simp only [simulationRun] at hrun
    cases hrun
    simp
  | cons hd tl ih =>
    intro out hrun
    obtain ⟨eid, einp⟩ := hd
    simp only [simulationRun] at hrun
    by_cases hax : eid.axis ≠ "MS"
    · rw [if_pos hax, excMap_ok] at hrun
      obtain ⟨out', hrest, rfl⟩ := hrun
      simp only [List.map_cons, elementEntry, if_pos hax]
      exact congrArg _ (ih out' hrest)
    · rw [if_neg hax] at hrun
      rcases hh : einp.height with _ | hv
      all_goals rw [hh] at hrun
      · rw [excMap_ok] at hrun
        obtain ⟨out', hrest, rfl⟩ := hrun
        simp only [List.map_cons, elementEntry, if_neg hax, hh]
        exact congrArg _ (ih out' hrest)
      · by_cases hv1 : MODEL_VERSION = "SurfacicProteins" ∨
            MODEL_VERSION = "SurfacicProteins_Retroinhibition"
        · rw [if_pos hv1, excMap_ok] at hrun
          obtain ⟨out', hrest, rfl⟩ := hrun
          simp only [List.map_cons, elementEntry, if_neg hax, hh]
          exact congrArg _ (ih out' hrest)
        · rw [if_neg hv1] at hrun
          by_cases hv2 : MODEL_VERSION = "Barillot2016"
          · rw [if_pos hv2, excMap_ok] at hrun
            obtain ⟨out', hrest, rfl⟩ := hrun
            simp only [List.map_cons, elementEntry, if_neg hax, hh]
            exact congrArg _ (ih out' hrest)
          · rw [if_neg hv2] at hrun
            cases hrun

/-- C7, counterexample: an unrecognized configuration selector does not cause
a failure at configuration load — here simulationRun runs to completion with
the invalid selector bogus, because no element ever reaches the per-element
check that would raise; no error of any kind is produced. -/
theorem C7_invalid_version_counterexample :
    ¬ ∃ e, simulationRun "bogus" solver0 axes0 0 0 0 0 [] = .error e := by
  rintro ⟨e, h⟩
  simp only [simulationRun] at h
  cases h

/-- C7, amended: the selector check of simulation.py lives inside the
per-element loop of Simulation.run, not in a configuration-load step: the run
raises the NameError — whose message lists the valid selectors but does not
name the invalid one — exactly when the selector is unrecognized AND some
main-stem element with a non-missing height is processed; with an invalid
selector but no such element, the run completes without any error. -/
theorem C7_invalid_version_amended (MODEL_VERSION : String) (solver : SolverFun)
    (axes : ℕ × String → AxisInputs) (Ta CO2 RH Ur : ℝ)
    (elements : List (ElementId × ElemInputs)) :
    simulationRun MODEL_VERSION solver axes Ta CO2 RH Ur elements =
        .error invalidVersionMsg ↔
      ((MODEL_VERSION ≠ "SurfacicProteins" ∧
        MODEL_VERSION ≠ "SurfacicProteins_Retroinhibition" ∧
        MODEL_VERSION ≠ "Barillot2016") ∧
       ∃ p ∈ elements, p.1.axis = "MS" ∧ p.2.height ≠ none) := by
  induction elements with
  | nil =>
    simp [simulationRun]
  | cons hd tl ih =>
    obtain ⟨eid, einp⟩ := hd
    simp only [simulationRun]
    by_cases hax : eid.axis ≠ "MS"
    · rw [if_pos hax, excMap_error, ih]
      constructor
      · rintro ⟨hv, p, hp, hpp⟩
        exact ⟨hv, p, List.mem_cons_of_mem _ hp, hpp⟩
      · rintro ⟨hv, p, hp, hpp⟩
        rcases List.mem_cons.mp hp with rfl | hp'
        · exact absurd hpp.1 hax
        · exact ⟨hv, p, hp', hpp⟩
    · rw [if_neg hax]
      push_neg at hax
      rcases hh : einp.height with _ | hv
      · rw [excMap_error, ih]
        constructor
        · rintro ⟨hv, p, hp, hpp⟩
          exact ⟨hv, p, List.mem_cons_of_mem _ hp, hpp⟩
        · rintro ⟨hvv, p, hp, hpp⟩
          rcases List.mem_cons.mp hp with rfl | hp'
          · exact absurd hh (by simpa using hpp.2)
          · exact ⟨hvv, p, hp', hpp⟩
      · by_cases hv1 : MODEL_VERSION = "SurfacicProteins" ∨
            MODEL_VERSION = "SurfacicProteins_Retroinhibition"
        · rw [if_pos hv1, excMap_error, ih]
          constructor
          · rintro ⟨hvv, -⟩
            rcases hv1 with h | h
            · exact absurd h hvv.1
            · exact absurd h hvv.2.1
          · rintro ⟨hvv, -⟩
            rcases hv1 with h | h
            · exact absurd h hvv.1
            · exact absurd h hvv.2.1
        · rw [if_neg hv1]
          push_neg at hv1
          by_cases hv2 : MODEL_VERSION = "Barillot2016"
          · rw [if_pos hv2, excMap_error, ih]
            constructor
            · rintro ⟨hvv, -⟩
              exact absurd hv2 hvv.2.2
            · rintro ⟨hvv, -⟩
              exact absurd hv2 hvv.2.2
          · rw [if_neg hv2]
            constructor
            · intro _
              exact ⟨⟨hv1.1, hv1.2, hv2⟩,
                (eid, einp), List.mem_cons_self _ _, hax, by simp [hh]⟩
            · intro _
              rfl

/-- C8, counterexample: a non main-stem element whose height input is missing
is skipped before the height test, so its outputs are not set at all — its
entry stays the empty dict created on line 80 (modelled as none), instead of
the zero/SAM record the claim asserts for every height-less element. -/
theorem C8_height_bypass_counterexample :
    simulationRun "Barillot2016" solver0 axes0 0 0 0 0 [(idT1, inpNone)] =
      .ok [(idT1, none)] ∧
    (none : Option ElemOutputs) ≠
      some ⟨0, 0, 0, 0, (axes0 (idT1.plant, idT1.axis)).SAM_temperature, 0,
        inpNone.width, inpNone.height⟩ := by
  constructor
  · rfl
  · simp

/-- C8, amended: for every MAIN-STEM element whose height input is missing,
Simulation.run bypasses the solver entirely: whenever the run completes, the
outputs of such an element are Ag = An = Rd = Tr = gs = 0 with Ts set to the
SAM_temperature of its axis; a non main-stem element is skipped altogether
and gets no output values (see the counterexample). -/
theorem C8_height_bypass_amended (MODEL_VERSION : String) (solver : SolverFun)
    (axes : ℕ × String → AxisInputs) (Ta CO2 RH Ur : ℝ)
    (elements : List (ElementId × ElemInputs))
    (out : List (ElementId × Option ElemOutputs)) (eid : ElementId) (einp : ElemInputs)
    (hrun : simulationRun MODEL_VERSION solver axes Ta CO2 RH Ur elements = .ok out)
    (hmem : (eid, einp) ∈ elements) (hax : eid.axis = "MS") (hh : einp.height = none) :
    (eid, some (⟨0, 0, 0, 0, (axes (eid.plant, eid.axis)).SAM_temperature, 0,
      einp.width, einp.height⟩ : ElemOutputs)) ∈ out := by
  have hout := simulationRun_ok_map MODEL_VERSION solver axes Ta CO2 RH Ur elements out hrun
  subst hout
  have hentry : elementEntry MODEL_VERSION solver axes Ta CO2 RH Ur (eid, einp) =
      (eid, some (⟨0, 0, 0, 0, (axes (eid.plant, eid.axis)).SAM_temperature, 0,
        einp.width, einp.height⟩ : ElemOutputs)) := by
    simp only [elementEntry, hax, hh]
    simp
  exact hentry ▸ List.mem_map_of_mem _ hmem

/-- C8, witness of the amended theorem: one main-stem element without height,
solved with the Barillot2016 selector; its entry is the zero/SAM record. -/
theorem C8_height_bypass_witness :
    (idMS, some (⟨0, 0, 0, 0, (axes0 (idMS.plant, idMS.axis)).SAM_temperature, 0,
      inpNone.width, inpNone.height⟩ : ElemOutputs)) ∈
      [(idMS, some (⟨0, 0, 0, 0, (axes0 (idMS.plant, idMS.axis)).SAM_temperature, 0,
        inpNone.width, inpNone.height⟩ : ElemOutputs))] :=
  C8_height_bypass_amended "Barillot2016" solver0 axes0 0 0 0 0 [(idMS, inpNone)]
    [(idMS, some (⟨0, 0, 0, 0, (axes0 (idMS.plant, idMS.axis)).SAM_temperature, 0,
      inpNone.width, inpNone.height⟩ : ElemOutputs))] idMS inpNone
    (by rfl) (List.mem_singleton_self _) rfl rfl

/-- C10: Simulation.run computes photosynthesis only for main-stem elements:
every element whose axis label is not MS is skipped before any solver
dispatch — for any abstract solver whatsoever — and when the run completes,
the entry of such an element holds no output values (the empty dict of line
80, modelled as none). -/
theorem C10_main_stem_only (MODEL_VERSION : String) (solver : SolverFun)
    (axes : ℕ × String → AxisInputs) (Ta CO2 RH Ur : ℝ)
    (elements : List (ElementId × ElemInputs))
    (out : List (ElementId × Option ElemOutputs)) (eid : ElementId) (einp : ElemInputs)
    (hrun : simulationRun MODEL_VERSION solver axes Ta CO2 RH Ur elements = .ok out)
    (hmem : (eid, einp) ∈ elements) (hax : eid.axis ≠ "MS") :
    (eid, (none : Option ElemOutputs)) ∈ out := by
  have hout := simulationRun_ok_map MODEL_VERSION solver axes Ta CO2 RH Ur elements out hrun
  subst hout
  have hentry : elementEntry MODEL_VERSION solver axes Ta CO2 RH Ur (eid, einp) =
      (eid, (none : Option ElemOutputs)) := by
    simp only [elementEntry, if_pos hax]
  exact hentry ▸ List.mem_map_of_mem _ hmem

/-- C10, witness: one tiller element; its entry in the completed run holds no
output values. -/
theorem C10_main_stem_only_witness :
    (idT1, (none : Option ElemOutputs)) ∈ [(idT1, (none : Option ElemOutputs))] :=
  C10_main_stem_only "Barillot2016" solver0 axes0 0 0 0 0 [(idT1, inpNone)]
    [(idT1, none)] idT1 inpNone (by rfl) (List.mem_singleton_self _) (by decide)

/-- The smoothing-quadratic solution for the electron transport rate, as a
function of its two capacity arguments: J_of PAR N Ts is Jsmooth applied to
Jmax and ALPHA times PAR.  Helper for the monotonicity proof. -/
noncomputable def Jsmooth (x y : ℝ) : ℝ :=
  ((x + y) - Real.sqrt ((x + y) ^ 2 - 4 * Model.THETA * x * y)) / (2 * Model.THETA)

theorem J_of_eq_Jsmooth (PAR N Ts : ℝ) :
    Model.J_of PAR N Ts = Jsmooth (Model.Jmax_of N Ts) (Model.ALPHA_of N * PAR) := by
  simp only [Model.J_of, Jsmooth]
  ring_nf

theorem Jsmooth_comm (x y : ℝ) : Jsmooth x y = Jsmooth y x := by
  simp only [Jsmooth]
  ring_nf

theorem Jsmooth_mono_left {x1 x2 y : ℝ} (hx1 : 0 ≤ x1) (hx : x1 ≤ x2) (hy : 0 ≤ y) :
    Jsmooth x1 y ≤ Jsmooth x2 y := by
  have hθ : Model.THETA = 0.72 := rfl
  simp only [Jsmooth, hθ]
  have hx2 : 0 ≤ x2 := hx1.trans hx
  have hD1 : (0:ℝ) ≤ (x1 + y) ^ 2 - 4 * 0.72 * x1 * y := by
    nlinarith [sq_nonneg (x1 - y), mul_nonneg hx1 hy]
  have hD2 : (0:ℝ) ≤ (x2 + y) ^ 2 - 4 * 0.72 * x2 * y := by
    nlinarith [sq_nonneg (x2 - y), mul_nonneg hx2 hy]
  set s1 := Real.sqrt ((x1 + y) ^ 2 - 4 * 0.72 * x1 * y) with hs1def
  have hs1n : 0 ≤ s1 := Real.sqrt_nonneg _
  have hs1sq : s1 ^ 2 = (x1 + y) ^ 2 - 4 * 0.72 * x1 * y := Real.sq_sqrt hD1
  have key : x1 + y - 2 * 0.72 * y ≤ s1 := by
    rcases le_or_lt (x1 + y - 2 * 0.72 * y) 0 with h0 | h0
    · linarith
    · have hsq : (x1 + y - 2 * 0.72 * y) ^ 2 ≤ (x1 + y) ^ 2 - 4 * 0.72 * x1 * y := by
        nlinarith [sq_nonneg y, mul_nonneg hx1 hy]
      calc x1 + y - 2 * 0.72 * y
          = Real.sqrt ((x1 + y - 2 * 0.72 * y) ^ 2) := (Real.sqrt_sq h0.le).symm
        _ ≤ s1 := Real.sqrt_le_sqrt hsq
  have hs2 : Real.sqrt ((x2 + y) ^ 2 - 4 * 0.72 * x2 * y) ≤ s1 + (x2 - x1) := by
    have hnn : 0 ≤ s1 + (x2 - x1) := by linarith
    have hmul : (x2 - x1) * (x1 + y - 2 * 0.72 * y) ≤ (x2 - x1) * s1 :=
      mul_le_mul_of_nonneg_left key (by linarith)
    have hle : (x2 + y) ^ 2 - 4 * 0.72 * x2 * y ≤ (s1 + (x2 - x1)) ^ 2 := by
      nlinarith [hs1sq, hmul]
    calc Real.sqrt ((x2 + y) ^ 2 - 4 * 0.72 * x2 * y)
        ≤ Real.sqrt ((s1 + (x2 - x1)) ^ 2) := Real.sqrt_le_sqrt hle
      _ = s1 + (x2 - x1) := Real.sqrt_sq hnn
  have hnum : (x1 + y) - s1 ≤
      (x2 + y) - Real.sqrt ((x2 + y) ^ 2 - 4 * 0.72 * x2 * y) := by linarith
  exact (div_le_div_iff_of_pos_right (by norm_num : (0:ℝ) < 2 * 0.72)).mpr hnum

theorem Jsmooth_mono {x1 x2 y1 y2 : ℝ} (hx1 : 0 ≤ x1) (hx : x1 ≤ x2)
    (hy1 : 0 ≤ y1) (hy : y1 ≤ y2) : Jsmooth x1 y1 ≤ Jsmooth x2 y2 :=
  calc Jsmooth x1 y1 ≤ Jsmooth x2 y1 := Jsmooth_mono_left hx1 hx hy1
    _ = Jsmooth y1 x2 := Jsmooth_comm _ _
    _ ≤ Jsmooth y2 x2 := Jsmooth_mono_left hy1 hy (hx1.trans hx)
    _ = Jsmooth x2 y2 := Jsmooth_comm _ _

/-- C6, counterexample: the claim that a higher nitrogen content strictly
increases the limitation rates fails for Ac when Ci is below the compensation
point: at Ts = 25, Ci = 0, doubling the nitrogen content from 1 to 2
strictly DEcreases Ac, because the strictly increased Vc_max multiplies the
negative factor Ci - Gamma. -/
theorem C6_nitrogen_monotonicity_counterexample :
    Model.Ac_of 2 25 0 < Model.Ac_of 1 25 0 := by
  simp only [Model.Ac_of, Model.Vc_max_of, Model.Gamma_of, Model.Kc_of, Model.Ko_of,
    Model.f_temperature_at_25, Model.S_Vc_max25, Model.surfacic_nitrogen_min_Vc_max25,
    Model.GAMMA25, Model.KC25, Model.KO25, Model.O]
  norm_num

/-- C6, amended: holding PAR, Ts and Ci fixed, raising the surfacic
non-structural nitrogen above its (zero) minimum threshold strictly increases
the capacity terms Vc_max, Jmax and TPU at every temperature, and — for
nonnegative PAR and Ci — does not decrease the Ag returned by
calculate_photosynthesis.  The limitation rates Ac, Aj, Ap themselves need
not increase: Ac strictly decreases when Ci is below the compensation point
(see the counterexample); they are nondecreasing once Ci exceeds it. -/
theorem C6_nitrogen_monotonicity_amended (Ts Ci PAR N1 N2 : ℝ)
    (h0 : 0 ≤ N1) (h12 : N1 < N2) (hPAR : 0 ≤ PAR) (hCi : 0 ≤ Ci) :
    Model.Vc_max_of N1 Ts < Model.Vc_max_of N2 Ts ∧
    Model.Jmax_of N1 Ts < Model.Jmax_of N2 Ts ∧
    Model.TPU_of N1 Ts < Model.TPU_of N2 Ts ∧
    (Model.calculate_photosynthesis PAR N1 Ts Ci).1 ≤
      (Model.calculate_photosynthesis PAR N2 Ts Ci).1 := by
  have hKc : 0 < Model.Kc_of Ts := by
    unfold Model.Kc_of
    exact Model.f_temperature_pos _ _ (by norm_num [Model.KC25])
  have hKo : 0 < Model.Ko_of Ts := by
    unfold Model.Ko_of
    exact Model.f_temperature_pos _ _ (by norm_num [Model.KO25])
  have hGam : 0 < Model.Gamma_of Ts := by
    unfold Model.Gamma_of
    exact Model.f_temperature_pos _ _ (by norm_num [Model.GAMMA25])
  have hVc : Model.Vc_max_of N1 Ts < Model.Vc_max_of N2 Ts := by
    unfold Model.Vc_max_of
    exact Model.f_temperature_lt_of_lt _ _ (by
      simp only [Model.S_Vc_max25, Model.surfacic_nitrogen_min_Vc_max25]
      nlinarith)
  have hJmax : Model.Jmax_of N1 Ts < Model.Jmax_of N2 Ts := by
    unfold Model.Jmax_of
    exact Model.f_temperature_lt_of_lt _ _ (by
      simp only [Model.S_Jmax25, Model.surfacic_nitrogen_min_Jmax25]
      nlinarith)
  have hTPU : Model.TPU_of N1 Ts < Model.TPU_of N2 Ts := by
    unfold Model.TPU_of
    exact Model.f_temperature_lt_of_lt _ _ (by
      simp only [Model.S_TPU25, Model.surfacic_nitrogen_min_TPU25]
      nlinarith)
  have hVc1nn : 0 ≤ Model.Vc_max_of N1 Ts := by
    unfold Model.Vc_max_of
    exact Model.f_temperature_nonneg _ _ (by
      simp only [Model.S_Vc_max25, Model.surfacic_nitrogen_min_Vc_max25]
      nlinarith)
  have hVc2nn : 0 ≤ Model.Vc_max_of N2 Ts := by
    unfold Model.Vc_max_of
    exact Model.f_temperature_nonneg _ _ (by
      simp only [Model.S_Vc_max25, Model.surfacic_nitrogen_min_Vc_max25]
      nlinarith)
  refine ⟨hVc, hJmax, hTPU, ?_⟩
  have hden : 0 < Ci + Model.Kc_of Ts * (1 + Model.O / Model.Ko_of Ts) := by
    have hOKo : 0 < Model.O / Model.Ko_of Ts := div_pos (by norm_num [Model.O]) hKo
    nlinarith
  rcases le_or_lt Ci (Model.Gamma_of Ts) with hCiG | hCiG
  · have hAc1 : Model.Ac_of N1 Ts Ci ≤ 0 := by
      unfold Model.Ac_of
      exact div_nonpos_iff.mpr (Or.inr
        ⟨mul_nonpos_of_nonneg_of_nonpos hVc1nn (by linarith), hden.le⟩)
    have hAc2 : Model.Ac_of N2 Ts Ci ≤ 0 := by
      unfold Model.Ac_of
      exact div_nonpos_iff.mpr (Or.inr
        ⟨mul_nonpos_of_nonneg_of_nonpos hVc2nn (by linarith), hden.le⟩)
    have hAg1 : min (Model.Ac_of N1 Ts Ci)
        (min (Model.Aj_of PAR N1 Ts Ci) (Model.Ap_of N1 Ts Ci)) ≤ 0 :=
      le_trans (min_le_left _ _) hAc1
    have hAg2 : min (Model.Ac_of N2 Ts Ci)
        (min (Model.Aj_of PAR N2 Ts Ci) (Model.Ap_of N2 Ts Ci)) ≤ 0 :=
      le_trans (min_le_left _ _) hAc2
    simp only [Model.calculate_photosynthesis]
    rw [if_pos hAg1, if_pos hAg2]
  · have hCi0 : 0 < Ci := lt_trans hGam hCiG
    have hAc : Model.Ac_of N1 Ts Ci ≤ Model.Ac_of N2 Ts Ci := by
      unfold Model.Ac_of
      exact (div_le_div_iff_of_pos_right hden).mpr
        (mul_le_mul_of_nonneg_right hVc.le (by linarith))
    have hJ1nn : 0 ≤ Model.Jmax_of N1 Ts := by
      unfold Model.Jmax_of
      exact Model.f_temperature_nonneg _ _ (by
        simp only [Model.S_Jmax25, Model.surfacic_nitrogen_min_Jmax25]
        nlinarith)
    have hA1nn : 0 ≤ Model.ALPHA_of N1 * PAR := by
      unfold Model.ALPHA_of
      have : (0:ℝ) ≤ Model.S_alpha * N1 + Model.beta := by
        simp only [Model.S_alpha, Model.beta]
        nlinarith
      exact mul_nonneg this hPAR
    have hAle : Model.ALPHA_of N1 * PAR ≤ Model.ALPHA_of N2 * PAR := by
      unfold Model.ALPHA_of
      have : Model.S_alpha * N1 + Model.beta ≤ Model.S_alpha * N2 + Model.beta := by
        simp only [Model.S_alpha, Model.beta]
        nlinarith
      exact mul_le_mul_of_nonneg_right this hPAR
    have hJ : Model.J_of PAR N1 Ts ≤ Model.J_of PAR N2 Ts := by
      rw [J_of_eq_Jsmooth, J_of_eq_Jsmooth]
      exact Jsmooth_mono hJ1nn hJmax.le hA1nn hAle
    have hAj : Model.Aj_of PAR N1 Ts Ci ≤ Model.Aj_of PAR N2 Ts Ci := by
      unfold Model.Aj_of
      exact (div_le_div_iff_of_pos_right (by nlinarith)).mpr
        (mul_le_mul_of_nonneg_right hJ (by linarith))
    have hVomax : Model.Vomax_of N1 Ts ≤ Model.Vomax_of N2 Ts := by
      unfold Model.Vomax_of
      have hdenV : (0:ℝ) < 0.5 * Model.Kc_of Ts * Model.O := by
        have : (0:ℝ) < Model.O := by norm_num [Model.O]
        nlinarith
      exact (div_le_div_iff_of_pos_right hdenV).mpr
        (mul_le_mul_of_nonneg_right (mul_le_mul_of_nonneg_right hVc.le hKo.le) hGam.le)
    have hVo : Model.Vo_of N1 Ts Ci ≤ Model.Vo_of N2 Ts Ci := by
      unfold Model.Vo_of
      have hdenVo : (0:ℝ) < Model.O + Model.Ko_of Ts * (1 + Ci / Model.Kc_of Ts) := by
        have h1 : (0:ℝ) ≤ Ci / Model.Kc_of Ts := div_nonneg hCi hKc.le
        have h2 : (0:ℝ) < Model.O := by norm_num [Model.O]
        nlinarith
      exact (div_le_div_iff_of_pos_right hdenVo).mpr
        (mul_le_mul_of_nonneg_right hVomax (by norm_num [Model.O]))
    have hfac : 0 ≤ 1 - Model.Gamma_of Ts / Ci := by
      have : Model.Gamma_of Ts / Ci ≤ 1 := (div_le_one hCi0).mpr hCiG.le
      linarith
    have hAp : Model.Ap_of N1 Ts Ci ≤ Model.Ap_of N2 Ts Ci := by
      unfold Model.Ap_of
      exact mul_le_mul_of_nonneg_left (by linarith) hfac
    have hAg : min (Model.Ac_of N1 Ts Ci)
        (min (Model.Aj_of PAR N1 Ts Ci) (Model.Ap_of N1 Ts Ci)) ≤
        min (Model.Ac_of N2 Ts Ci)
          (min (Model.Aj_of PAR N2 Ts Ci) (Model.Ap_of N2 Ts Ci)) :=
      min_le_min hAc (min_le_min hAj hAp)
    simp only [Model.calculate_photosynthesis]
    split_ifs with hc1 hc2 hc2
    · exact le_refl 0
    · push_neg at hc2
      exact hc2.le
    · exact absurd (le_trans hAg hc2) hc1
    · exact hAg

/-- C6, witness of the amended theorem at Ts = 25, Ci = 0, PAR = 0, with the
nitrogen content raised from 1 to 2. -/
theorem C6_nitrogen_monotonicity_witness :
    Model.Vc_max_of 1 25 < Model.Vc_max_of 2 25 ∧
    Model.Jmax_of 1 25 < Model.Jmax_of 2 25 ∧
    Model.TPU_of 1 25 < Model.TPU_of 2 25 ∧
    (Model.calculate_photosynthesis 0 1 25 0).1 ≤
      (Model.calculate_photosynthesis 0 2 25 0).1 :=
  C6_nitrogen_monotonicity_amended 25 0 0 1 2 (by norm_num) (by norm_num)
    (by norm_num) (by norm_num)
